import Mathlib

/-!
Shallow embedding of `opts_list.py` (scrcpy launcher helper).

The repository is a single Python file with three parts:
  * `get_android_devices(verbose)` — parses `adb devices -l` output and
    queries each device's SDK version via `adb shell getprop`;
  * `launch_scrcpy(serial, ...)` — builds a `scrcpy` command and runs it,
    converting subprocess failures into stderr messages;
  * a `__main__` driver gluing the two behind argparse flags.

External subprocesses are modelled as explicit inputs: the outcome of the
`adb devices -l` call (`AdbResult`), a per-serial outcome of the `getprop`
query (`String → PropResult`), and the outcome of running the built
`scrcpy` command (`List String → RunOutcome`).  Python exceptions are an
explicit `Except PyErr` channel: an uncaught exception is `Except.error`,
while every `try/except` of the source is a `match` that converts the
caught error kinds back to `Except.ok`.
-/

/-- Python exception kinds that the source raises or catches:
`FileNotFoundError`, `subprocess.CalledProcessError`, and `ValueError`
(raised by `int(...)` on an unparsable string). -/
inductive PyErr where
  | fileNotFound
  | calledProcessError
  | valueError
deriving DecidableEq

/-- Outcome of `subprocess.check_output(['adb', 'devices', '-l'])`. -/
inductive AdbResult where
  | ok (out : String)
  | fileNotFound
  | calledProcessError
deriving DecidableEq

/-- Outcome of `subprocess.check_output(['adb', '-s', serial, 'shell',
'getprop', 'ro.build.version.sdk'])` for one serial.  `check_output` raises
`CalledProcessError` on non-zero exit. -/
inductive PropResult where
  | ok (out : String)
  | calledProcessError
deriving DecidableEq

/-- Outcome of `subprocess.run(command, check=True)` for the scrcpy launch:
success, `FileNotFoundError`, or `CalledProcessError`. -/
inductive RunOutcome where
  | ok
  | fileNotFound
  | calledProcessError
deriving DecidableEq

/-- Python `\s` for the ASCII range: space, tab, newline, carriage return,
vertical tab, form feed. -/
def pyIsSpace (c : Char) : Bool :=
  c == ' ' || c == '\t' || c == '\n' || c == '\r' || c == '\x0b' || c == '\x0c'

/-- Python `[\w\d]` (which equals `\w`): letters, digits, underscore.
ASCII approximation of the source's regex character class. -/
def pyIsWordChar (c : Char) : Bool :=
  c.isAlphanum || c == '_'

/-- `l.strip()` on a character list: drop leading and trailing whitespace. -/
def pyStripData (l : List Char) : List Char :=
  (((l.dropWhile pyIsSpace).reverse.dropWhile pyIsSpace)).reverse

/-- Python `str.strip()` with no argument. -/
def pyStrip (s : String) : String :=
  String.mk (pyStripData s.data)

/-- `s.startswith(c)` for a single-character argument, as in
`line.startswith('*')`. -/
def startsWithChar (s : String) (c : Char) : Bool :=
  match s.data with
  | [] => false
  | x :: _ => x == c

/-- Helper for `pySplitlines`: walk the characters, emitting a line at each
terminator (`\r\n`, `\r`, or `\n`); at the end of input the pending line is
emitted only when non-empty, matching Python `str.splitlines()`. -/
def splitLinesAux : List Char → List Char → List (List Char)
  | [], acc => if acc = [] then [] else [acc.reverse]
  | '\r' :: '\n' :: rest, acc => acc.reverse :: splitLinesAux rest []
  | '\r' :: rest, acc => acc.reverse :: splitLinesAux rest []
  | '\n' :: rest, acc => acc.reverse :: splitLinesAux rest []
  | c :: rest, acc => splitLinesAux rest (c :: acc)

/-- Python `str.splitlines()` restricted to the common terminators
`\n`, `\r`, `\r\n` (the exotic Unicode terminators Python also splits on
do not occur in adb output). -/
def pySplitlines (s : String) : List String :=
  (splitLinesAux s.data []).map String.mk

/-- The source's regex match `re.match(r'([\w\d]+)\s+device(.*)', line)`.
Returns `(group 1, group 2)` on success.  The regex is anchored at the
start; `[\w\d]+` and `\s+` are greedy, and no backtracking to a shorter
prefix can ever succeed (a shorter word-char run is followed by a word
char, which `\s+` cannot match, and a shorter whitespace run is followed
by whitespace, which the literal `device` cannot match), so maximal munch
is an exact model. -/
def matchDeviceLine (line : String) : Option (String × String) :=
  let l := line.data
  let tok := l.takeWhile pyIsWordChar
  let rest1 := l.dropWhile pyIsWordChar
  let ws := rest1.takeWhile pyIsSpace
  let rest2 := rest1.dropWhile pyIsSpace
  if tok = [] then none
  else if ws = [] then none
  else if rest2.take 6 = "device".data then
    some (String.mk tok, String.mk (rest2.drop 6))
  else none

/-- The device dictionary appended by `get_android_devices`. -/
structure Device where
  serial : String
  audio_possible : Bool
  full_info : String
  sdk_version : Int
deriving DecidableEq

/-- Value of a non-empty all-digit character run, most significant first. -/
def digitsVal (l : List Char) : Nat :=
  l.foldl (fun n c => n * 10 + (c.toNat - 48)) 0

/-- A non-empty run of decimal digits, or failure. -/
def parseDigits (l : List Char) : Option Nat :=
  if l ≠ [] ∧ l.all Char.isDigit then some (digitsVal l) else none

/-- Python `int()` applied to an already-stripped string: an optional
sign followed by one or more decimal digits (digit-group underscores,
which Python also accepts, do not occur in `getprop` output and are not
modelled).  `none` models the `ValueError` that `int` raises. -/
def pyIntData : List Char → Option Int
  | '+' :: rest => (parseDigits rest).map (fun n => Int.ofNat n)
  | '-' :: rest => (parseDigits rest).map (fun n => -(Int.ofNat n))
  | l => (parseDigits l).map (fun n => Int.ofNat n)

/-- `int(check_output([... getprop ...]).decode('utf-8').strip())` for one
serial: a failed `check_output` raises `CalledProcessError`; an unparsable
string makes `int` raise `ValueError`. -/
def get_sdk_version (g : String → PropResult) (serial : String) : Except PyErr Int :=
  match g serial with
  | PropResult.ok out =>
      match pyIntData (pyStrip out).data with
      | some n => Except.ok n
      | none => Except.error PyErr.valueError
  | PropResult.calledProcessError => Except.error PyErr.calledProcessError

/-- The stderr message `f"Error getting SDK version for {serial}: {e}"`;
the exception text `e` is abstracted. -/
def sdkErrMsg (serial : String) : String :=
  "Error getting SDK version for " ++ serial ++ ": "

/-- The body of the `for` loop of `get_android_devices` for one line:
the `if line.strip() and not line.startswith('*')` guard, the regex match,
the SDK query in its inner `try/except (CalledProcessError, ValueError)`,
and the conditional verbose stderr print.  Returns the device appended for
this line (if any) and the stderr messages printed; any exception not
caught by the inner handler propagates as `Except.error`. -/
def process_device_line (v : Bool) (g : String → PropResult) (line : String) :
    Except PyErr (Option Device × List String) :=
  if pyStrip line ≠ "" ∧ startsWithChar line '*' = false then
    match matchDeviceLine line with
    | some (serial, _rest) =>
        match get_sdk_version g serial with
        | Except.ok sdk =>
            Except.ok (some { serial := serial, audio_possible := decide (30 ≤ sdk),
                              full_info := pyStrip line, sdk_version := sdk }, [])
        | Except.error PyErr.calledProcessError =>
            Except.ok (none, if v then [sdkErrMsg serial] else [])
        | Except.error PyErr.valueError =>
            Except.ok (none, if v then [sdkErrMsg serial] else [])
        | Except.error PyErr.fileNotFound => Except.error PyErr.fileNotFound
    | none => Except.ok (none, [])
  else Except.ok (none, [])

/-- One `foldlM` step over the lines: thread the accumulated device list
and stderr messages through `process_device_line`. -/
def gad_step (v : Bool) (g : String → PropResult)
    (acc : List Device × List String) (line : String) :
    Except PyErr (List Device × List String) :=
  match process_device_line v g line with
  | Except.ok (d, msgs) => Except.ok (acc.1 ++ d.toList, acc.2 ++ msgs)
  | Except.error e => Except.error e

/-- Stderr message of the outer `except FileNotFoundError` handler. -/
def adbNotFoundMsg : String :=
  "Error: adb not found. Make sure it's in your PATH."

/-- Stderr message of the outer `except subprocess.CalledProcessError`
handler; the exception text is abstracted. -/
def adbCommErrMsg : String :=
  "Error communicating with adb: "

/-- `get_android_devices(verbose)`.  The outer `try` covers the adb call
and the whole loop; its `except` clauses catch `FileNotFoundError` and
`CalledProcessError` and return `[]` after printing to stderr.  The result
is `(devices, stderr messages)`; `Except.error` would be an uncaught
exception escaping the function. -/
def get_android_devices (v : Bool) (adb : AdbResult) (g : String → PropResult) :
    Except PyErr (List Device × List String) :=
  let body : Except PyErr (List Device × List String) :=
    match adb with
    | AdbResult.fileNotFound => Except.error PyErr.fileNotFound
    | AdbResult.calledProcessError => Except.error PyErr.calledProcessError
    | AdbResult.ok out =>
        ((pySplitlines out).drop 1).foldlM (gad_step v g) ([], [])
  match body with
  | Except.ok r => Except.ok r
  | Except.error PyErr.fileNotFound => Except.ok ([], [adbNotFoundMsg])
  | Except.error PyErr.calledProcessError => Except.ok ([], [adbCommErrMsg])
  | Except.error PyErr.valueError => Except.error PyErr.valueError

/-- Pure per-line device outcome: `process_device_line` never raises, and
this is the device it contributes (used to state the loop's result). -/
def deviceOfLine (g : String → PropResult) (line : String) : Option Device :=
  if pyStrip line ≠ "" ∧ startsWithChar line '*' = false then
    match matchDeviceLine line with
    | some (serial, _rest) =>
        match get_sdk_version g serial with
        | Except.ok sdk =>
            some { serial := serial, audio_possible := decide (30 ≤ sdk),
                   full_info := pyStrip line, sdk_version := sdk }
        | Except.error _ => none
    | none => none
  else none

/-- Pure per-line stderr messages of the loop body. -/
def logsOfLine (v : Bool) (g : String → PropResult) (line : String) : List String :=
  if pyStrip line ≠ "" ∧ startsWithChar line '*' = false then
    match matchDeviceLine line with
    | some (serial, _rest) =>
        match get_sdk_version g serial with
        | Except.ok _ => []
        | Except.error _ => if v then [sdkErrMsg serial] else []
    | none => []
  else []

/-- Devices contributed by a list of lines, in order. -/
def devicesOfLines (g : String → PropResult) : List String → List Device
  | [] => []
  | line :: rest => (deviceOfLine g line).toList ++ devicesOfLines g rest

/-- Stderr messages contributed by a list of lines, in order. -/
def logsOfLines (v : Bool) (g : String → PropResult) : List String → List String
  | [] => []
  | line :: rest => logsOfLine v g line ++ logsOfLines v g rest

/-- The `--video-codec` segment of the scrcpy command: present iff the
Python value is truthy (`if video_codec:`), i.e. a non-empty string. -/
def vc_part : Option String → List String
  | some v => if v ≠ "" then ["--video-codec", v] else []
  | none => []

/-- The `-m` segment: present iff `max_size` is truthy (`if max_size:`),
i.e. supplied and non-zero. -/
def max_size_part : Option Int → List String
  | some m => if m ≠ 0 then ["-m", toString m] else []
  | none => []

/-- The `--max-fps` segment: present iff `max_fps` is truthy. -/
def max_fps_part : Option Int → List String
  | some f => if f ≠ 0 then ["--max-fps", toString f] else []
  | none => []

/-- The `--no-audio` segment: appended when `not audio`. -/
def audio_part (audio : Bool) : List String :=
  if audio = false then ["--no-audio"] else []

/-- The `--keyboard=uhid` segment: appended when `keyboard_mode == "uhid"`. -/
def keyboard_part (kb : String) : List String :=
  if kb = "uhid" then ["--keyboard=uhid"] else []

/-- The argument list built by `launch_scrcpy` before running it:
`command = ['scrcpy', '-s', serial]` followed by the conditional
`extend`/`append` calls, in source order. -/
def build_command (serial : String) (video_codec : Option String)
    (max_size : Option Int) (max_fps : Option Int)
    (audio : Bool) (keyboard_mode : String) : List String :=
  let command := ["scrcpy", "-s", serial]
  let command := match video_codec with
    | some vc => if vc ≠ "" then command ++ ["--video-codec", vc] else command
    | none => command
  let command := match max_size with
    | some m => if m ≠ 0 then command ++ ["-m", toString m] else command
    | none => command
  let command := match max_fps with
    | some f => if f ≠ 0 then command ++ ["--max-fps", toString f] else command
    | none => command
  let command := if audio = false then command ++ ["--no-audio"] else command
  if keyboard_mode = "uhid" then command ++ ["--keyboard=uhid"] else command

/-- Stderr message of `launch_scrcpy`'s `except FileNotFoundError`. -/
def scrcpyNotFoundMsg : String :=
  "Error: scrcpy not found. Make sure it's installed and in your PATH."

/-- Stderr message of `launch_scrcpy`'s `except CalledProcessError`;
the exception text is abstracted. -/
def scrcpyRunErrMsg : String :=
  "Error running scrcpy: "

/-- `launch_scrcpy(serial, video_codec, max_size, max_fps, audio,
keyboard_mode, verbose)`, with the outcome of `subprocess.run(command,
check=True)` supplied as `run`.  Returns `(stdout lines, stderr lines)`;
both possible subprocess exceptions are caught, so no `Except.error`
constructor appears in the body. -/
def launch_scrcpy (serial : String) (video_codec : Option String)
    (max_size : Option Int) (max_fps : Option Int)
    (audio : Bool) (keyboard_mode : String) (verbose : Bool)
    (run : List String → RunOutcome) :
    Except PyErr (List String × List String) :=
  let command := build_command serial video_codec max_size max_fps audio keyboard_mode
  let stdoutLines := if verbose then ["Running command: " ++ String.intercalate " " command] else []
  match run command with
  | RunOutcome.ok => Except.ok (stdoutLines, [])
  | RunOutcome.fileNotFound => Except.ok (stdoutLines, [scrcpyNotFoundMsg])
  | RunOutcome.calledProcessError => Except.ok (stdoutLines, [scrcpyRunErrMsg])

/-- The argparse namespace of the `__main__` block. -/
structure Args where
  serial : Option String := none
  video_codec : Option String := none
  max_size : Option Int := none
  max_fps : Option Int := none
  no_audio : Bool := false
  keyboard_mode : String := "default"
  verbose : Bool := false
  list_devices : Bool := false
deriving DecidableEq

/-- Observable outcome of the `__main__` block: stdout lines, stderr
lines, process exit code, and the arguments `launch_scrcpy` was invoked
with (`none` when it was not invoked). -/
structure DriverResult where
  stdout : List String
  stderr : List String
  exit_code : Nat
  launched : Option (String × Option String × Option Int × Option Int × Bool × String)

/-- The stdout block printed per device in `--list-devices` mode.  The
last line is `"-" * 20`. -/
def deviceBlockLines (d : Device) : List String :=
  ["Device: " ++ d.full_info,
   "  Serial: " ++ d.serial,
   "  SDK Version: " ++ toString d.sdk_version,
   "  Audio Forwarding Possible: " ++ (if d.audio_possible then "Yes" else "No"),
   "--------------------"]

/-- The verbose per-device stdout line of launch mode. -/
def foundDeviceMsg (d : Device) : String :=
  "Found device: " ++ d.full_info ++ " (Audio: "
    ++ (if d.audio_possible then "Possible" else "Not Possible") ++ ")"

/-- Stdout line printed when `--serial` is missing without
`--list-devices`. -/
def serialRequiredMsg : String :=
  "Error: Serial number (-s) is required unless --list-devices is used."

/-- Stands for the text printed by `parser.print_help()`; the argparse
help content is external library output and is abstracted to an opaque
list of lines (no claim depends on its content). -/
def argHelpText : List String :=
  ["usage: opts_list.py [-h] [-s SERIAL] ..."]

/-- Python truthiness of the optional serial string: `args.serial` is
truthy when it is a non-`None`, non-empty string, so `not args.serial`
holds for `None` and for the falsy empty string alike. -/
def pyTruthyOptStr : Option String → Bool
  | none => false
  | some s => decide (s ≠ "")

/-- The `__main__` block after `parser.parse_args()`: list mode, the
required-serial check (`if not args.serial:`, which fails for `None` and
for the falsy empty string), then launch mode.  Uncaught exceptions
would show up as `Except.error`. -/
def main_driver (args : Args) (adb : AdbResult) (g : String → PropResult)
    (run : List String → RunOutcome) : Except PyErr DriverResult :=
  if args.list_devices then
    match get_android_devices args.verbose adb g with
    | Except.ok (devices, logs) =>
        let out := if devices ≠ [] then devices.flatMap deviceBlockLines
                   else ["No devices found."]
        Except.ok { stdout := out, stderr := logs, exit_code := 0, launched := none }
    | Except.error e => Except.error e
  else if pyTruthyOptStr args.serial = false then
    Except.ok { stdout := [serialRequiredMsg] ++ argHelpText, stderr := [],
                exit_code := 1, launched := none }
  else
    match args.serial with
    | none =>
        Except.ok { stdout := [serialRequiredMsg] ++ argHelpText, stderr := [],
                    exit_code := 1, launched := none }
    | some s =>
        match get_android_devices args.verbose adb g with
        | Except.ok (devices, logs) =>
            if devices ≠ [] then
              let verboseOut := if args.verbose then devices.map foundDeviceMsg else []
              match launch_scrcpy s args.video_codec args.max_size args.max_fps
                      (!args.no_audio) args.keyboard_mode args.verbose run with
              | Except.ok (lout, lerr) =>
                  Except.ok { stdout := verboseOut ++ lout, stderr := logs ++ lerr,
                              exit_code := 0,
                              launched := some (s, args.video_codec, args.max_size,
                                args.max_fps, !args.no_audio, args.keyboard_mode) }
              | Except.error e => Except.error e
            else
              Except.ok { stdout := [], stderr := logs, exit_code := 1, launched := none }
        | Except.error e => Except.error e

/-! ## Helper lemmas -/

theorem word_not_space (c : Char) (h : pyIsWordChar c = true) : pyIsSpace c = false := by
  by_contra hs
  rw [Bool.not_eq_false] at hs
  unfold pyIsSpace at hs
  simp only [Bool.or_eq_true, beq_iff_eq] at hs
  rcases hs with ((((h1 | h1) | h1) | h1) | h1) | h1 <;> subst h1 <;>
    exact absurd h (by decide)

theorem takeWhile_append_stop {α : Type} (p : α → Bool) (l1 l2 : List α)
    (h1 : ∀ x ∈ l1, p x = true)
    (h2 : ∀ y ys, l2 = y :: ys → p y = false) :
    (l1 ++ l2).takeWhile p = l1 := by
  induction l1 with
  | nil =>
    cases l2 with
    | nil => rfl
    | cons y ys => simp [List.takeWhile_cons, h2 y ys rfl]
  | cons a l ih =>
    have ha : p a = true := h1 a (by simp)
    simp only [List.cons_append, List.takeWhile_cons, ha, if_true]
    rw [ih (fun x hx => h1 x (by simp [hx]))]

theorem stringMk_ne_empty (l : List Char) (h : l ≠ []) : String.mk l ≠ "" := by
  intro he
  apply h
  have hd : (String.mk l).data = ("" : String).data := by rw [he]
  simpa using hd

theorem matchDeviceLine_serial (line : String) (serial rest : String)
    (hm : matchDeviceLine line = some (serial, rest)) :
    serial = String.mk (line.data.takeWhile (fun c => !pyIsSpace c)) := by
  simp only [matchDeviceLine] at hm
  by_cases h1 : line.data.takeWhile pyIsWordChar = []
  · simp [h1] at hm
  by_cases h2 : (line.data.dropWhile pyIsWordChar).takeWhile pyIsSpace = []
  · simp [h1, h2] at hm
  by_cases h3 : ((line.data.dropWhile pyIsWordChar).dropWhile pyIsSpace).take 6 = "device".data
  · rw [if_neg h1, if_neg h2, if_pos h3] at hm
    have hm2 := Option.some.inj hm
    have hserial : serial = String.mk (line.data.takeWhile pyIsWordChar) :=
      (congrArg Prod.fst hm2).symm
    obtain ⟨y, ys, hy, hys⟩ :
        ∃ y ys, line.data.dropWhile pyIsWordChar = y :: ys ∧ pyIsSpace y = true := by
      cases hr : line.data.dropWhile pyIsWordChar with
      | nil => rw [hr] at h2; exact absurd rfl h2
      | cons y ys =>
        refine ⟨y, ys, rfl, ?_⟩
        by_contra hny
        rw [Bool.not_eq_true] at hny
        rw [hr] at h2
        simp [List.takeWhile_cons, hny] at h2
    have hsplit : line.data
        = line.data.takeWhile pyIsWordChar ++ line.data.dropWhile pyIsWordChar :=
      (List.takeWhile_append_dropWhile pyIsWordChar line.data).symm
    have htw : line.data.takeWhile (fun c => !pyIsSpace c)
        = line.data.takeWhile pyIsWordChar := by
      conv_lhs => rw [hsplit]
      apply takeWhile_append_stop
      · intro x hx
        have hw := List.mem_takeWhile_imp hx
        simp [word_not_space x hw]
      · intro z zs hz
        rw [hy] at hz
        injection hz with hz1 hz2
        subst hz1
        simp [hys]
    rw [hserial, htw]
  · rw [if_neg h1, if_neg h2, if_neg h3] at hm
    exact absurd hm (by simp)

theorem matchDeviceLine_guard (line : String) (serial rest : String)
    (hm : matchDeviceLine line = some (serial, rest)) :
    pyStrip line ≠ "" ∧ startsWithChar line '*' = false := by
  have h1 : line.data.takeWhile pyIsWordChar ≠ [] := by
    intro h1
    simp only [matchDeviceLine] at hm
    simp [h1] at hm
  obtain ⟨c, t, hl, hc⟩ : ∃ c t, line.data = c :: t ∧ pyIsWordChar c = true := by
    cases hl : line.data with
    | nil => rw [hl] at h1; exact absurd rfl h1
    | cons c t =>
      refine ⟨c, t, rfl, ?_⟩
      by_contra hnc
      rw [Bool.not_eq_true] at hnc
      rw [hl] at h1
      simp [List.takeWhile_cons, hnc] at h1
  constructor
  · unfold pyStrip pyStripData
    apply stringMk_ne_empty
    rw [hl]
    have hcs : pyIsSpace c = false := word_not_space c hc
    rw [List.dropWhile_cons]
    simp only [hcs, Bool.false_eq_true, if_false]
    intro hrev
    rw [List.reverse_eq_nil_iff] at hrev
    rw [List.dropWhile_eq_nil_iff] at hrev
    have hcmem : c ∈ (c :: t).reverse := by simp
    have hctrue := hrev c hcmem
    rw [hctrue] at hcs
    exact Bool.true_eq_false.mp hcs
  · unfold startsWithChar
    rw [hl]
    have hcne : c ≠ '*' := by
      intro hceq
      subst hceq
      exact absurd hc (by decide)
    simp [hcne]

theorem get_sdk_version_ne_fnf (g : String → PropResult) (serial : String) :
    get_sdk_version g serial ≠ Except.error PyErr.fileNotFound := by
  unfold get_sdk_version
  cases g serial with
  | ok out => cases h : pyIntData (pyStrip out).data <;> simp [h]
  | calledProcessError => simp

theorem process_device_line_eq (v : Bool) (g : String → PropResult) (line : String) :
    process_device_line v g line = Except.ok (deviceOfLine g line, logsOfLine v g line) := by
  unfold process_device_line deviceOfLine logsOfLine
  split
  · cases hm : matchDeviceLine line with
    | none => rfl
    | some p =>
      obtain ⟨serial, rest⟩ := p
      dsimp only
      cases hs : get_sdk_version g serial with
      | ok sdk => rfl
      | error e =>
        cases e with
        | fileNotFound => exact absurd hs (get_sdk_version_ne_fnf g serial)
        | calledProcessError => rfl
        | valueError => rfl
  · rfl

theorem gad_fold (v : Bool) (g : String → PropResult) (lines : List String) :
    ∀ acc : List Device × List String,
      lines.foldlM (gad_step v g) acc
        = Except.ok (acc.1 ++ devicesOfLines g lines, acc.2 ++ logsOfLines v g lines) := by
  induction lines with
  | nil =>
    intro acc
    simp only [List.foldlM, devicesOfLines, logsOfLines, List.append_nil]
    rfl
  | cons line rest ih =>
    intro acc
    have hstep : gad_step v g acc line
        = Except.ok (acc.1 ++ (deviceOfLine g line).toList, acc.2 ++ logsOfLine v g line) := by
      unfold gad_step
      rw [process_device_line_eq]
    calc (line :: rest).foldlM (gad_step v g) acc
        = gad_step v g acc line >>= fun acc2 => rest.foldlM (gad_step v g) acc2 := by
          simp [List.foldlM]
      _ = rest.foldlM (gad_step v g)
            (acc.1 ++ (deviceOfLine g line).toList, acc.2 ++ logsOfLine v g line) := by
          rw [hstep]; rfl
      _ = Except.ok (acc.1 ++ devicesOfLines g (line :: rest),
                     acc.2 ++ logsOfLines v g (line :: rest)) := by
          rw [ih]
          simp [devicesOfLines, logsOfLines, List.append_assoc]

theorem get_android_devices_ok (v : Bool) (out : String) (g : String → PropResult) :
    get_android_devices v (AdbResult.ok out) g
      = Except.ok (devicesOfLines g ((pySplitlines out).drop 1),
                   logsOfLines v g ((pySplitlines out).drop 1)) := by
  have h := gad_fold v g ((pySplitlines out).drop 1) ([], [])
  unfold get_android_devices
  dsimp only
  rw [h]
  rfl

theorem get_android_devices_isOk (v : Bool) (adb : AdbResult) (g : String → PropResult) :
    (get_android_devices v adb g).isOk = true := by
  cases adb with
  | ok out => rw [get_android_devices_ok]; rfl
  | fileNotFound => rfl
  | calledProcessError => rfl

theorem mem_devicesOfLines (g : String → PropResult) (lines : List String) (d : Device) :
    d ∈ devicesOfLines g lines ↔ ∃ line, line ∈ lines ∧ deviceOfLine g line = some d := by
  induction lines with
  | nil => simp [devicesOfLines]
  | cons line rest ih =>
    simp only [devicesOfLines, List.mem_append, ih, Option.mem_toList, Option.mem_def,
      List.mem_cons]
    constructor
    · rintro (hd | ⟨l, hl, hdl⟩)
      · exact ⟨line, Or.inl rfl, hd⟩
      · exact ⟨l, Or.inr hl, hdl⟩
    · rintro ⟨l, hl | hl, hdl⟩
      · subst hl; exact Or.inl hdl
      · exact Or.inr ⟨l, hl, hdl⟩

theorem deviceOfLine_eq_some (g : String → PropResult) (line : String) (d : Device)
    (h : deviceOfLine g line = some d) :
    get_sdk_version g d.serial = Except.ok d.sdk_version
    ∧ d.audio_possible = decide (30 ≤ d.sdk_version)
    ∧ d.full_info = pyStrip line
    ∧ ∃ rest, matchDeviceLine line = some (d.serial, rest) := by
  unfold deviceOfLine at h
  split at h
  · cases hm : matchDeviceLine line with
    | none => rw [hm] at h; exact absurd h (by simp)
    | some p =>
      obtain ⟨serial, rest⟩ := p
      rw [hm] at h
      dsimp only at h
      cases hs : get_sdk_version g serial with
      | ok sdk =>
        rw [hs] at h
        dsimp only at h
        have hd := Option.some.inj h
        subst hd
        exact ⟨hs, rfl, rfl, rest, rfl⟩
      | error e =>
        rw [hs] at h
        exact absurd h (by simp)
  · exact absurd h (by simp)

theorem deviceOfLine_of_ok (g : String → PropResult) (line : String)
    (serial rest : String) (sdk : Int)
    (hm : matchDeviceLine line = some (serial, rest))
    (hs : get_sdk_version g serial = Except.ok sdk) :
    deviceOfLine g line
      = some { serial := serial, audio_possible := decide (30 ≤ sdk),
               full_info := pyStrip line, sdk_version := sdk } := by
  obtain ⟨hne, hstar⟩ := matchDeviceLine_guard line serial rest hm
  unfold deviceOfLine
  rw [if_pos ⟨hne, hstar⟩, hm]
  dsimp only
  rw [hs]

theorem logsOfLine_not_verbose (g : String → PropResult) (line : String) :
    logsOfLine false g line = [] := by
  unfold logsOfLine
  split
  · cases matchDeviceLine line with
    | none => rfl
    | some p =>
      obtain ⟨serial, r⟩ := p
      dsimp only
      cases get_sdk_version g serial <;> rfl
  · rfl

theorem logsOfLines_not_verbose (g : String → PropResult) (lines : List String) :
    logsOfLines false g lines = [] := by
  induction lines with
  | nil => rfl
  | cons line rest ih => simp [logsOfLines, logsOfLine_not_verbose, ih]

theorem logsOfLine_verbose_fail (g : String → PropResult) (line : String)
    (serial rest : String)
    (hm : matchDeviceLine line = some (serial, rest))
    (hfail : (get_sdk_version g serial).isOk = false) :
    logsOfLine true g line = [sdkErrMsg serial] := by
  obtain ⟨hne, hstar⟩ := matchDeviceLine_guard line serial rest hm
  unfold logsOfLine
  rw [if_pos ⟨hne, hstar⟩, hm]
  dsimp only
  cases hs : get_sdk_version g serial with
  | ok n => rw [hs] at hfail; exact Bool.noConfusion hfail
  | error e => rfl

theorem mem_logsOfLines (v : Bool) (g : String → PropResult) (lines : List String)
    (x : String) :
    x ∈ logsOfLines v g lines ↔ ∃ line, line ∈ lines ∧ x ∈ logsOfLine v g line := by
  induction lines with
  | nil => simp [logsOfLines]
  | cons line rest ih =>
    simp only [logsOfLines, List.mem_append, ih, List.mem_cons]
    constructor
    · rintro (hx | ⟨l, hl, hxl⟩)
      · exact ⟨line, Or.inl rfl, hx⟩
      · exact ⟨l, Or.inr hl, hxl⟩
    · rintro ⟨l, hl | hl, hxl⟩
      · subst hl; exact Or.inl hxl
      · exact Or.inr ⟨l, hl, hxl⟩

theorem except_isOk_exists {ε α : Type} (e : Except ε α) (h : e.isOk = true) :
    ∃ a, e = Except.ok a := by
  cases e with
  | ok a => exact ⟨a, rfl⟩
  | error err => exact Bool.noConfusion h

set_option maxHeartbeats 1000000 in
theorem build_command_eq (serial : String) (vc : Option String) (ms mf : Option Int)
    (audio : Bool) (kb : String) :
    build_command serial vc ms mf audio kb
      = ["scrcpy", "-s", serial] ++ vc_part vc ++ max_size_part ms ++ max_fps_part mf
        ++ audio_part audio ++ keyboard_part kb := by
  unfold build_command vc_part max_size_part max_fps_part audio_part keyboard_part
  cases vc <;> cases ms <;> cases mf <;> cases audio <;>
    dsimp only <;> split_ifs <;> simp [List.append_assoc]

theorem mem_vc_part (vc : Option String) (x : String) (h : x ∈ vc_part vc) :
    x = "--video-codec" ∨ ∃ v, vc = some v ∧ x = v := by
  cases vc with
  | none => simp [vc_part] at h
  | some v =>
    simp only [vc_part] at h
    split at h
    · rcases List.mem_cons.mp h with h1 | h1
      · exact Or.inl h1
      · simp at h1; exact Or.inr ⟨v, rfl, h1⟩
    · simp at h

theorem mem_max_size_part (ms : Option Int) (x : String) (h : x ∈ max_size_part ms) :
    x = "-m" ∨ ∃ m, ms = some m ∧ x = toString m := by
  cases ms with
  | none => simp [max_size_part] at h
  | some m =>
    simp only [max_size_part] at h
    split at h
    · rcases List.mem_cons.mp h with h1 | h1
      · exact Or.inl h1
      · simp at h1; exact Or.inr ⟨m, rfl, h1⟩
    · simp at h

theorem mem_max_fps_part (mf : Option Int) (x : String) (h : x ∈ max_fps_part mf) :
    x = "--max-fps" ∨ ∃ f, mf = some f ∧ x = toString f := by
  cases mf with
  | none => simp [max_fps_part] at h
  | some f =>
    simp only [max_fps_part] at h
    split at h
    · rcases List.mem_cons.mp h with h1 | h1
      · exact Or.inl h1
      · simp at h1; exact Or.inr ⟨f, rfl, h1⟩
    · simp at h

theorem mem_keyboard_part (kb : String) (x : String) (h : x ∈ keyboard_part kb) :
    x = "--keyboard=uhid" := by
  unfold keyboard_part at h
  split at h
  · simpa using h
  · simp at h

theorem vc_part_flag_iff (vc : Option String) :
    "--video-codec" ∈ vc_part vc ↔ ∃ v, vc = some v ∧ v ≠ "" := by
  cases vc with
  | none => simp [vc_part]
  | some v =>
    unfold vc_part
    by_cases hv : v ≠ "" <;> simp [hv]

theorem max_size_part_flag_iff (ms : Option Int) :
    "-m" ∈ max_size_part ms ↔ ∃ m, ms = some m ∧ m ≠ 0 := by
  cases ms with
  | none => simp [max_size_part]
  | some m =>
    unfold max_size_part
    by_cases hm : m ≠ 0 <;> simp [hm]

theorem max_fps_part_flag_iff (mf : Option Int) :
    "--max-fps" ∈ max_fps_part mf ↔ ∃ f, mf = some f ∧ f ≠ 0 := by
  cases mf with
  | none => simp [max_fps_part]
  | some f =>
    unfold max_fps_part
    by_cases hf : f ≠ 0 <;> simp [hf]

theorem launch_scrcpy_ok (serial : String) (vc : Option String) (ms mf : Option Int)
    (audio : Bool) (kb : String) (verbose : Bool) (run : List String → RunOutcome) :
    ∃ o e, launch_scrcpy serial vc ms mf audio kb verbose run = Except.ok (o, e) := by
  unfold launch_scrcpy
  dsimp only
  cases run (build_command serial vc ms mf audio kb) <;> exact ⟨_, _, rfl⟩

/-! ## Claim theorems -/

/-- C2: for every Device Record produced by the device lister, the
`audio_possible` flag is true if and only if the parsed platform API
level (`sdk_version`) is at least 30. -/
theorem C2_audio_possible_iff (v : Bool) (adb : AdbResult) (g : String → PropResult)
    (ds : List Device) (ls : List String)
    (h : get_android_devices v adb g = Except.ok (ds, ls))
    (d : Device) (hd : d ∈ ds) :
    d.audio_possible = true ↔ 30 ≤ d.sdk_version := by
  cases adb with
  | ok out =>
    rw [get_android_devices_ok] at h
    have hds : devicesOfLines g ((pySplitlines out).drop 1) = ds :=
      congrArg Prod.fst (Except.ok.inj h)
    rw [← hds] at hd
    rw [mem_devicesOfLines] at hd
    obtain ⟨line, _hl, hdl⟩ := hd
    obtain ⟨_hsdk, haud, _hfi, _hm⟩ := deviceOfLine_eq_some g line d hdl
    rw [haud]
    exact decide_eq_true_iff
  | fileNotFound =>
    have hds : ([] : List Device) = ds := by
      have h2 : get_android_devices v AdbResult.fileNotFound g
          = Except.ok ([], [adbNotFoundMsg]) := rfl
      rw [h2] at h
      exact congrArg Prod.fst (Except.ok.inj h)
    rw [← hds] at hd
    exact absurd hd (List.not_mem_nil d)
  | calledProcessError =>
    have hds : ([] : List Device) = ds := by
      have h2 : get_android_devices v AdbResult.calledProcessError g
          = Except.ok ([], [adbCommErrMsg]) := rfl
      rw [h2] at h
      exact congrArg Prod.fst (Except.ok.inj h)
    rw [← hds] at hd
    exact absurd hd (List.not_mem_nil d)

/-- C2 witness: a device reporting SDK 30 is listed with the capability
flag true, and 30 ≤ 30. -/
theorem C2_audio_possible_iff_witness :
    ({ serial := "abc", audio_possible := true, full_info := "abc device",
       sdk_version := 30 } : Device).audio_possible = true ↔
      30 ≤ ({ serial := "abc", audio_possible := true, full_info := "abc device",
              sdk_version := 30 } : Device).sdk_version :=
  C2_audio_possible_iff false (AdbResult.ok "hdr\nabc device")
    (fun _ => PropResult.ok "30")
    [{ serial := "abc", audio_possible := true, full_info := "abc device",
       sdk_version := 30 }] [] (by rfl) _ (by simp)

/-- C3: every Device Record produced by the lister comes from a line of
the adb output that matches the regex, and its stored identifier equals
that line's first whitespace-delimited token. -/
theorem C3_serial_is_first_token (v : Bool) (out : String) (g : String → PropResult)
    (ds : List Device) (ls : List String)
    (h : get_android_devices v (AdbResult.ok out) g = Except.ok (ds, ls))
    (d : Device) (hd : d ∈ ds) :
    ∃ line, line ∈ (pySplitlines out).drop 1
      ∧ (∃ rest, matchDeviceLine line = some (d.serial, rest))
      ∧ d.serial = String.mk (line.data.takeWhile (fun c => !pyIsSpace c)) := by
  rw [get_android_devices_ok] at h
  have hds : devicesOfLines g ((pySplitlines out).drop 1) = ds :=
    congrArg Prod.fst (Except.ok.inj h)
  rw [← hds] at hd
  rw [mem_devicesOfLines] at hd
  obtain ⟨line, hl, hdl⟩ := hd
  obtain ⟨_hsdk, _haud, _hfi, rest, hm⟩ := deviceOfLine_eq_some g line d hdl
  exact ⟨line, hl, ⟨rest, hm⟩, matchDeviceLine_serial line d.serial rest hm⟩

/-- C3 witness: for the single listed device of a concrete adb output,
the stored serial "abc" is the first whitespace-delimited token of its
line "abc device usb:1". -/
theorem C3_serial_is_first_token_witness :
    ∃ line, line ∈ (pySplitlines "hdr\nabc device usb:1").drop 1
      ∧ (∃ rest, matchDeviceLine line
          = some (({ serial := "abc", audio_possible := true,
                     full_info := "abc device usb:1", sdk_version := 30 } : Device).serial, rest))
      ∧ ({ serial := "abc", audio_possible := true, full_info := "abc device usb:1",
           sdk_version := 30 } : Device).serial
          = String.mk (line.data.takeWhile (fun c => !pyIsSpace c)) :=
  C3_serial_is_first_token false "hdr\nabc device usb:1"
    (fun _ => PropResult.ok "30")
    [{ serial := "abc", audio_possible := true, full_info := "abc device usb:1",
       sdk_version := 30 }] [] (by rfl) _ (by simp)

/-- C8: if the SDK version of some serial cannot be retrieved or parsed,
the device lister still returns normally (no uncaught exception: the
result is `Except.ok`), and no returned Device Record carries that
serial. -/
theorem C8_unparsable_sdk_no_crash (v : Bool) (adb : AdbResult)
    (g : String → PropResult) (serial : String)
    (hfail : (get_sdk_version g serial).isOk = false) :
    (get_android_devices v adb g).isOk = true
    ∧ ∀ ds ls, get_android_devices v adb g = Except.ok (ds, ls) →
        ∀ d ∈ ds, d.serial ≠ serial := by
  refine ⟨get_android_devices_isOk v adb g, ?_⟩
  intro ds ls h d hd hser
  cases adb with
  | ok out =>
    rw [get_android_devices_ok] at h
    have hds : devicesOfLines g ((pySplitlines out).drop 1) = ds :=
      congrArg Prod.fst (Except.ok.inj h)
    rw [← hds] at hd
    rw [mem_devicesOfLines] at hd
    obtain ⟨line, _hl, hdl⟩ := hd
    obtain ⟨hsdk, _haud, _hfi, _hm⟩ := deviceOfLine_eq_some g line d hdl
    rw [hser] at hsdk
    rw [hsdk] at hfail
    exact Bool.noConfusion hfail
  | fileNotFound =>
    have h2 : get_android_devices v AdbResult.fileNotFound g
        = Except.ok ([], [adbNotFoundMsg]) := rfl
    rw [h2] at h
    have hds : ([] : List Device) = ds := congrArg Prod.fst (Except.ok.inj h)
    rw [← hds] at hd
    exact absurd hd (List.not_mem_nil d)
  | calledProcessError =>
    have h2 : get_android_devices v AdbResult.calledProcessError g
        = Except.ok ([], [adbCommErrMsg]) := rfl
    rw [h2] at h
    have hds : ([] : List Device) = ds := congrArg Prod.fst (Except.ok.inj h)
    rw [← hds] at hd
    exact absurd hd (List.not_mem_nil d)

/-- C8 witness: with a getprop output that is not an integer, the lister
returns `Except.ok` and lists no device with the failing serial. -/
theorem C8_unparsable_sdk_no_crash_witness :
    (get_android_devices false (AdbResult.ok "hdr\nabc device")
        (fun _ => PropResult.ok "notanumber")).isOk = true
    ∧ ∀ ds ls,
        get_android_devices false (AdbResult.ok "hdr\nabc device")
            (fun _ => PropResult.ok "notanumber") = Except.ok (ds, ls) →
        ∀ d ∈ ds, d.serial ≠ "abc" :=
  C8_unparsable_sdk_no_crash false (AdbResult.ok "hdr\nabc device")
    (fun _ => PropResult.ok "notanumber") "abc" (by rfl)

/-- C1 counterexample: the line "abc device usb:1" is in the "device"
state (it matches the lister's pattern), yet when the SDK query for
"abc" fails the returned sequence is empty — the device is omitted from
the returned sequence, not merely from capability annotation as the
claim states. -/
theorem C1_counterexample :
    matchDeviceLine "abc device usb:1" = some ("abc", " usb:1")
    ∧ get_android_devices false
        (AdbResult.ok "List of devices attached\nabc device usb:1")
        (fun _ => PropResult.calledProcessError)
      = Except.ok ([], []) := by
  constructor
  · rfl
  · rfl

/-- C1 (amended): for every line of the listing that matches the
lister's pattern, a Device Record with that line's serial appears in the
returned sequence if and only if the platform API level for that serial
can be retrieved and parsed; when it cannot, the device is omitted from
the returned sequence entirely, and the failure is logged (to stderr)
exactly when the verbosity flag is enabled. -/
theorem C1_amended_omitted_from_sequence (v : Bool) (out : String)
    (g : String → PropResult) (ds : List Device) (ls : List String)
    (h : get_android_devices v (AdbResult.ok out) g = Except.ok (ds, ls))
    (line : String) (hline : line ∈ (pySplitlines out).drop 1)
    (serial rest : String) (hm : matchDeviceLine line = some (serial, rest)) :
    ((∃ d ∈ ds, d.serial = serial) ↔ (get_sdk_version g serial).isOk = true)
    ∧ (v = false → ls = [])
    ∧ (v = true → (get_sdk_version g serial).isOk = false → sdkErrMsg serial ∈ ls) := by
  rw [get_android_devices_ok] at h
  have hpair := Except.ok.inj h
  have hds : devicesOfLines g ((pySplitlines out).drop 1) = ds :=
    congrArg Prod.fst hpair
  have hls : logsOfLines v g ((pySplitlines out).drop 1) = ls :=
    congrArg Prod.snd hpair
  refine ⟨⟨?_, ?_⟩, ?_, ?_⟩
  · rintro ⟨d, hd, hdser⟩
    rw [← hds] at hd
    rw [mem_devicesOfLines] at hd
    obtain ⟨l2, _hl2, hdl2⟩ := hd
    obtain ⟨hsdk, _, _, _⟩ := deviceOfLine_eq_some g l2 d hdl2
    rw [hdser] at hsdk
    rw [hsdk]
    rfl
  · intro hok
    obtain ⟨sdk, hsdk⟩ := except_isOk_exists _ hok
    have hdev := deviceOfLine_of_ok g line serial rest sdk hm hsdk
    refine ⟨{ serial := serial, audio_possible := decide (30 ≤ sdk),
              full_info := pyStrip line, sdk_version := sdk }, ?_, rfl⟩
    rw [← hds]
    rw [mem_devicesOfLines]
    exact ⟨line, hline, hdev⟩
  · intro hv
    subst hv
    rw [← hls]
    exact logsOfLines_not_verbose g _
  · intro hv hfail
    subst hv
    rw [← hls]
    rw [mem_logsOfLines]
    refine ⟨line, hline, ?_⟩
    rw [logsOfLine_verbose_fail g line serial rest hm hfail]
    simp

/-- C1 amended witness: concrete failing SDK query with verbosity off —
no record for "abc" is returned and nothing is logged. -/
theorem C1_amended_omitted_from_sequence_witness :
    ((∃ d ∈ ([] : List Device), d.serial = "abc")
        ↔ (get_sdk_version (fun _ => PropResult.calledProcessError) "abc").isOk = true)
    ∧ (false = false → ([] : List String) = [])
    ∧ (false = true →
        (get_sdk_version (fun _ => PropResult.calledProcessError) "abc").isOk = false →
        sdkErrMsg "abc" ∈ ([] : List String)) :=
  C1_amended_omitted_from_sequence false "List of devices attached\nabc device usb:1"
    (fun _ => PropResult.calledProcessError) [] [] (by rfl)
    "abc device usb:1" (by simp [pySplitlines, splitLinesAux])
    "abc" " usb:1" (by rfl)

/-- C4: when the scrcpy executable is missing (`FileNotFoundError`) or
the launched process exits non-zero (`CalledProcessError`), the launcher
reports the failure on stderr and returns normally (`Except.ok`), so no
failure propagates to its caller. -/
theorem C4_launcher_swallows_failures (serial : String) (vc : Option String)
    (ms mf : Option Int) (audio : Bool) (kb : String) (verbose : Bool)
    (run : List String → RunOutcome)
    (h : run (build_command serial vc ms mf audio kb) = RunOutcome.fileNotFound
       ∨ run (build_command serial vc ms mf audio kb) = RunOutcome.calledProcessError) :
    ∃ o e, launch_scrcpy serial vc ms mf audio kb verbose run = Except.ok (o, e)
      ∧ e ≠ [] := by
  unfold launch_scrcpy
  dsimp only
  rcases h with h | h <;> rw [h]
  · exact ⟨_, [scrcpyNotFoundMsg], rfl, by simp⟩
  · exact ⟨_, [scrcpyRunErrMsg], rfl, by simp⟩

/-- C4 witness: a missing scrcpy executable yields a normal return with a
non-empty stderr report. -/
theorem C4_launcher_swallows_failures_witness :
    ∃ o e, launch_scrcpy "zzz" none none none true "default" false
        (fun _ => RunOutcome.fileNotFound) = Except.ok (o, e) ∧ e ≠ [] :=
  C4_launcher_swallows_failures "zzz" none none none true "default" false
    (fun _ => RunOutcome.fileNotFound) (Or.inl rfl)

/-- C5: with the audio flag false (`--no-audio` given), the constructed
command contains "--no-audio"; with audio true, the audio segment is
empty and the command is exactly the base plus the other option
segments, none of which can contribute an audio-enabling flag — the only
flag literals the builder ever emits are "--video-codec", "-m",
"--max-fps", "--no-audio" and "--keyboard=uhid". -/
theorem C5_no_audio_flag (serial : String) (vc : Option String)
    (ms mf : Option Int) (kb : String) :
    "--no-audio" ∈ build_command serial vc ms mf false kb
    ∧ build_command serial vc ms mf false kb
        = ["scrcpy", "-s", serial] ++ vc_part vc ++ max_size_part ms
          ++ max_fps_part mf ++ ["--no-audio"] ++ keyboard_part kb
    ∧ build_command serial vc ms mf true kb
        = ["scrcpy", "-s", serial] ++ vc_part vc ++ max_size_part ms
          ++ max_fps_part mf ++ keyboard_part kb
    ∧ (∀ x ∈ vc_part vc, x = "--video-codec" ∨ ∃ v, vc = some v ∧ x = v)
    ∧ (∀ x ∈ max_size_part ms, x = "-m" ∨ ∃ m, ms = some m ∧ x = toString m)
    ∧ (∀ x ∈ max_fps_part mf, x = "--max-fps" ∨ ∃ f, mf = some f ∧ x = toString f)
    ∧ (∀ x ∈ keyboard_part kb, x = "--keyboard=uhid") := by
  have hfalse := build_command_eq serial vc ms mf false kb
  have htrue := build_command_eq serial vc ms mf true kb
  have haf : audio_part false = ["--no-audio"] := rfl
  have hat : audio_part true = [] := rfl
  rw [haf] at hfalse
  rw [hat] at htrue
  simp only [List.append_nil] at htrue
  refine ⟨?_, hfalse, htrue, mem_vc_part vc, mem_max_size_part ms,
    mem_max_fps_part mf, mem_keyboard_part kb⟩
  rw [hfalse]
  simp

/-- C5 witness: concrete commands with and without `--no-audio`. -/
theorem C5_no_audio_flag_witness :
    "--no-audio" ∈ build_command "zzz" none none none false "default"
    ∧ build_command "zzz" none none none false "default"
        = ["scrcpy", "-s", "zzz"] ++ vc_part none ++ max_size_part none
          ++ max_fps_part none ++ ["--no-audio"] ++ keyboard_part "default"
    ∧ build_command "zzz" none none none true "default"
        = ["scrcpy", "-s", "zzz"] ++ vc_part none ++ max_size_part none
          ++ max_fps_part none ++ keyboard_part "default"
    ∧ (∀ x ∈ vc_part none, x = "--video-codec" ∨ ∃ v, (none : Option String) = some v ∧ x = v)
    ∧ (∀ x ∈ max_size_part none, x = "-m" ∨ ∃ m, (none : Option Int) = some m ∧ x = toString m)
    ∧ (∀ x ∈ max_fps_part none, x = "--max-fps" ∨ ∃ f, (none : Option Int) = some f ∧ x = toString f)
    ∧ (∀ x ∈ keyboard_part "default", x = "--keyboard=uhid") :=
  C5_no_audio_flag "zzz" none none none "default"

/-- C6: with keyboard mode "uhid" the constructed command contains
"--keyboard=uhid"; with mode "default" the keyboard segment is empty and
the flag is absent from the command. -/
theorem C6_keyboard_uhid_flag (serial : String) (vc : Option String)
    (ms mf : Option Int) (audio : Bool) :
    "--keyboard=uhid" ∈ build_command serial vc ms mf audio "uhid"
    ∧ build_command serial vc ms mf audio "default"
        = ["scrcpy", "-s", serial] ++ vc_part vc ++ max_size_part ms
          ++ max_fps_part mf ++ audio_part audio
    ∧ keyboard_part "default" = [] := by
  have huhid := build_command_eq serial vc ms mf audio "uhid"
  have hdef := build_command_eq serial vc ms mf audio "default"
  have hk1 : keyboard_part "uhid" = ["--keyboard=uhid"] := rfl
  have hk2 : keyboard_part "default" = [] := rfl
  rw [hk1] at huhid
  rw [hk2] at hdef
  simp only [List.append_nil] at hdef
  refine ⟨?_, hdef, hk2⟩
  rw [huhid]
  simp

/-- C10: each of the "-m", "--max-fps" and "--video-codec" segments of
the constructed command is non-trivial (contains its flag) iff the
corresponding option value is Python-truthy; supplying 0 (or the empty
codec string) produces exactly the same segment as not supplying the
option at all. -/
theorem C10_truthy_flags (serial : String) (vc : Option String)
    (ms mf : Option Int) (audio : Bool) (kb : String) :
    build_command serial vc ms mf audio kb
      = ["scrcpy", "-s", serial] ++ vc_part vc ++ max_size_part ms
        ++ max_fps_part mf ++ audio_part audio ++ keyboard_part kb
    ∧ ("-m" ∈ max_size_part ms ↔ ∃ m, ms = some m ∧ m ≠ 0)
    ∧ ("--max-fps" ∈ max_fps_part mf ↔ ∃ f, mf = some f ∧ f ≠ 0)
    ∧ ("--video-codec" ∈ vc_part vc ↔ ∃ v, vc = some v ∧ v ≠ "")
    ∧ max_size_part (some 0) = max_size_part none
    ∧ max_fps_part (some 0) = max_fps_part none
    ∧ vc_part (some "") = vc_part none :=
  ⟨build_command_eq serial vc ms mf audio kb,
   max_size_part_flag_iff ms, max_fps_part_flag_iff mf, vc_part_flag_iff vc,
   by rfl, by rfl, by rfl⟩

/-- C7: in `--list-devices` mode, when the lister yields zero devices the
driver's stdout is exactly the single line "No devices found." and the
exit code is 0. -/
theorem C7_no_devices_found (args : Args) (adb : AdbResult)
    (g : String → PropResult) (run : List String → RunOutcome)
    (h1 : args.list_devices = true) (logs : List String)
    (h2 : get_android_devices args.verbose adb g = Except.ok ([], logs)) :
    main_driver args adb g run
      = Except.ok { stdout := ["No devices found."], stderr := logs,
                    exit_code := 0, launched := none } := by
  unfold main_driver
  rw [h1, h2]
  rfl

/-- C7 witness: an adb output with only the header line yields exactly
"No devices found." and exit code 0. -/
theorem C7_no_devices_found_witness :
    main_driver { list_devices := true } (AdbResult.ok "List of devices attached")
        (fun _ => PropResult.ok "30") (fun _ => RunOutcome.ok)
      = Except.ok { stdout := ["No devices found."], stderr := [],
                    exit_code := 0, launched := none } :=
  C7_no_devices_found { list_devices := true } (AdbResult.ok "List of devices attached")
    (fun _ => PropResult.ok "30") (fun _ => RunOutcome.ok) rfl [] (by rfl)

/-- C9: in launch mode (no `--list-devices`, a serial supplied — i.e. a
Python-truthy, non-empty serial string, since `if not args.serial:`
rejects `None` and `""` alike), the driver invokes the launcher iff the
lister's sequence is non-empty; the supplied serial is passed through
without being checked against the listed devices, and an empty sequence
makes the driver exit with code 1 without launching. -/
theorem C9_launch_iff_nonempty (args : Args) (adb : AdbResult)
    (g : String → PropResult) (run : List String → RunOutcome) (s : String)
    (h1 : args.list_devices = false) (h2 : args.serial = some s) (hs : s ≠ "")
    (devices : List Device) (logs : List String)
    (h3 : get_android_devices args.verbose adb g = Except.ok (devices, logs)) :
    (devices ≠ [] → ∃ r, main_driver args adb g run = Except.ok r
        ∧ r.launched = some (s, args.video_codec, args.max_size, args.max_fps,
            !args.no_audio, args.keyboard_mode)
        ∧ r.exit_code = 0)
    ∧ (devices = [] → main_driver args adb g run
        = Except.ok { stdout := [], stderr := logs, exit_code := 1,
                      launched := none }) := by
  have htr : pyTruthyOptStr (some s) = true := by
    simp [pyTruthyOptStr, hs]
  constructor
  · intro hne
    obtain ⟨o, e, hl⟩ := launch_scrcpy_ok s args.video_codec args.max_size
      args.max_fps (!args.no_audio) args.keyboard_mode args.verbose run
    refine ⟨{ stdout := (if args.verbose then devices.map foundDeviceMsg else []) ++ o,
              stderr := logs ++ e, exit_code := 0,
              launched := some (s, args.video_codec, args.max_size, args.max_fps,
                !args.no_audio, args.keyboard_mode) }, ?_, rfl, rfl⟩
    unfold main_driver
    rw [h1]
    simp only [Bool.false_eq_true, if_false]
    rw [h2, htr]
    simp only [Bool.true_eq_false, if_false]
    rw [h3]
    dsimp only
    rw [if_pos hne, hl]
  · intro hdev
    subst hdev
    unfold main_driver
    rw [h1]
    simp only [Bool.false_eq_true, if_false]
    rw [h2, htr]
    simp only [Bool.true_eq_false, if_false]
    rw [h3]
    rfl

/-- C9 witness: with one attached device "abc" and the unrelated
non-empty serial "zzz" supplied, the launcher is still invoked with
"zzz". -/
theorem C9_launch_iff_nonempty_witness :
    ∃ r, main_driver { serial := some "zzz" } (AdbResult.ok "hdr\nabc device")
          (fun _ => PropResult.ok "30") (fun _ => RunOutcome.ok) = Except.ok r
      ∧ r.launched = some ("zzz", none, none, none, true, "default")
      ∧ r.exit_code = 0 :=
  (C9_launch_iff_nonempty { serial := some "zzz" } (AdbResult.ok "hdr\nabc device")
    (fun _ => PropResult.ok "30") (fun _ => RunOutcome.ok) "zzz" rfl rfl (by decide)
    [{ serial := "abc", audio_possible := true, full_info := "abc device",
       sdk_version := 30 }] [] (by rfl)).1 (by simp)
